import Mathlib

/-!
Verification development for a multi-tenant identity service
(FastAPI/SQLAlchemy application: `src/security.py`, `src/api/query.py`,
`src/api/services.py`, `src/api/endpoints.py`, `src/models.py`).

The persistence layer is modelled as in-memory lists queried with the same
filters the SQLAlchemy queries use.  Password hashing (bcrypt) is an external
collaborator and is modelled as an abstract verify predicate passed as a
parameter.  The token module `src/api/jwt.py` is imported by `services.py`
and the tests but is not present in the sources, so the token codec is
modelled from the specification (see the doc comments below).
-/

namespace MultiTenantAuth

/-! ## Data model (`src/models.py`) -/

/-- `CoreUser` row: the columns read by the auth code
(`id`, `email`, `hashed_password`, `is_active`). -/
structure CoreUser where
  id : Int
  email : String
  hashedPassword : String
  isActive : Bool
deriving DecidableEq

/-- `Organization` row: the columns read by the auth code
(`id`, `slug`, `is_active`). -/
structure Organization where
  id : Int
  slug : String
  isActive : Bool
deriving DecidableEq

/-- `TenantUser` row: the columns read by the auth code
(`id`, `email`, `hashed_password`, `is_active`, `organization_id`). -/
structure TenantUser where
  id : Int
  email : String
  hashedPassword : String
  isActive : Bool
  organizationId : Int
deriving DecidableEq

/-- The shared store.  There is one database; tenant users live in a single
`tenant_users` table alongside the core tables (the `get_tenant_session`
helper in `services.py` returns the core session itself). -/
structure DB where
  coreUsers : List CoreUser
  organizations : List Organization
  tenantUsers : List TenantUser
deriving DecidableEq

/-! ## Queries (`src/api/query.py`)

Each query is a `SELECT ... FILTER ...` returning `.scalars().first()`,
modelled by `List.find?` with the same filter. -/

/-- `get_core_user_by_id`: `select(CoreUser).filter(CoreUser.id == user_id)`. -/
def get_core_user_by_id (user_id : Int) (db : DB) : Option CoreUser :=
  db.coreUsers.find? (fun u => u.id == user_id)

/-- `get_core_user_by_email`: `select(CoreUser).filter(CoreUser.email == email)`. -/
def get_core_user_by_email (email : String) (db : DB) : Option CoreUser :=
  db.coreUsers.find? (fun u => u.email == email)

/-- `get_organization_by_slug`:
`select(Organization).filter(Organization.slug == slug, Organization.is_active == True)`.
The activity filter is part of the query, so an inactive organization is
returned as `none`, indistinguishable from an absent one. -/
def get_organization_by_slug (slug : String) (db : DB) : Option Organization :=
  db.organizations.find? (fun o => o.slug == slug && o.isActive)

/-- `get_tenant_user_by_id`: `select(TenantUser).filter(TenantUser.id == user_id)`.
Note: the filter is on `id` only; there is no `organization_id` filter. -/
def get_tenant_user_by_id (user_id : Int) (db : DB) : Option TenantUser :=
  db.tenantUsers.find? (fun u => u.id == user_id)

/-- `get_tenant_user_by_email`: `select(TenantUser).filter(TenantUser.email == email)`.
Note: the filter is on `email` only; there is no `organization_id` filter. -/
def get_tenant_user_by_email (email : String) (db : DB) : Option TenantUser :=
  db.tenantUsers.find? (fun u => u.email == email)

/-! ## Python semantics helpers -/

/-- Python truthiness of an optional string (`if not s`): `None` and the
empty string are falsy. -/
def truthyS : Option String → Bool
  | none => false
  | some s => !s.isEmpty

/-- Python truthiness of an optional integer (`if not n`): `None` and `0`
are falsy. -/
def truthyI : Option Int → Bool
  | none => false
  | some n => n != 0

/-- The whitespace characters stripped by Python `int(str)`. -/
def pySpace (c : Char) : Bool :=
  c == ' ' || c == '\t' || c == '\n' || c == '\r' || c == '\x0b' || c == '\x0c'

/-- Digit run of a Python integer literal after its first digit: digits with
single underscores allowed between digits. -/
def pyDigitsRest : List Char → Nat → Option Nat
  | [], acc => some acc
  | '_' :: c :: rest, acc =>
      if c.isDigit then pyDigitsRest rest (acc * 10 + (c.toNat - 48)) else none
  | ['_'], _ => none
  | c :: rest, acc =>
      if c.isDigit then pyDigitsRest rest (acc * 10 + (c.toNat - 48)) else none

/-- Digit run of a Python integer literal: must start with a digit. -/
def pyDigits : List Char → Option Nat
  | [] => none
  | c :: rest => if c.isDigit then pyDigitsRest rest (c.toNat - 48) else none

/-- Python `int(str)`: strips whitespace, allows one optional sign, then a
digit run (with underscores between digits).  Returns `none` where Python
raises `ValueError`. -/
def pyInt (s : String) : Option Int :=
  let cs := ((s.toList.dropWhile pySpace).reverse.dropWhile pySpace).reverse
  match cs with
  | '+' :: rest => (pyDigits rest).map (fun n => (n : Int))
  | '-' :: rest => (pyDigits rest).map (fun n => -(n : Int))
  | rest => (pyDigits rest).map (fun n => (n : Int))

/-! ## Token codec

Modelled from the spec: the module `src/api/jwt.py` (functions
`create_access_token`, `create_refresh_token`, `decode_token`) is imported by
`services.py` and the tests but is absent from the sources.  The model
follows the spec's Token Codec contract: `issue` serializes the caller's
claims plus `issuedAt` and `expiresAt = issuedAt + ttl` and signs them with a
symmetric key; `verify` fails with the expired kind iff the token is
well-formed, correctly signed and `now > expiresAt`, and with the
malformed/invalid kind iff the structure cannot be parsed or the signature
does not verify (signature is checked before expiry, per the testable
property that a flipped signature byte fails as invalid, never expired). -/

/-- A decoded claim set, with the wire-format keys `sub`, `context`,
`tenant`, `org_id`, `email`, `iat`, `exp`.  Optional keys that a given token
may omit are `Option`s. -/
structure Payload where
  sub : Option String
  context : Option String
  tenant : Option String
  orgId : Option Int
  email : Option String
  iat : Int
  exp : Int
deriving DecidableEq

/-- The caller-supplied claims handed to `create_access_token` /
`create_refresh_token` (the `data` dict), before timestamps are added. -/
structure ClaimData where
  sub : Option String := none
  context : Option String := none
  tenant : Option String := none
  orgId : Option Int := none
  email : Option String := none
deriving DecidableEq

/-- Modelled from the spec: a wire token is either a well-formed signed
structure (payload plus signature bytes) or an unparseable string. -/
inductive Token where
  | signed (payload : Payload) (sig : String)
  | malformed (raw : String)
deriving DecidableEq

/-- The two failure kinds of token verification (`decode_token` raises
`ValueError("Token has expired")` or `ValueError("Invalid token")`). -/
inductive TokenError where
  | expired
  | invalid
deriving DecidableEq

/-- Modelled from the spec: serialization of a payload, used as signing
input.  Any concrete injection works for the model. -/
def serializeOpt : Option String → String
  | none => "-"
  | some s => "+" ++ s

/-- Modelled from the spec: serialization of a payload for signing. -/
def serializePayload (p : Payload) : String :=
  serializeOpt p.sub ++ "." ++ serializeOpt p.context ++ "." ++
  serializeOpt p.tenant ++ "." ++ serializeOpt (p.orgId.map toString) ++ "." ++
  serializeOpt p.email ++ "." ++ toString p.iat ++ "." ++ toString p.exp

/-- Modelled from the spec: the symmetric signature over a payload with the
process-wide secret key (stand-in for HMAC-SHA256). -/
def signPayload (key : String) (p : Payload) : String :=
  "sig(" ++ key ++ "|" ++ serializePayload p ++ ")"

/-- Modelled from the spec: `verify(token)`.  Malformed structure or a
signature that does not recompute fails as `invalid`; a correctly signed
token fails as `expired` iff `now > exp`; otherwise the original claim set
is returned. -/
def decode_token (key : String) (now : Int) : Token → Except TokenError Payload
  | .malformed _ => .error .invalid
  | .signed p sig =>
      if sig = signPayload key p then
        if p.exp < now then .error .expired else .ok p
      else .error .invalid

/-- Modelled from the spec: `issue(claims, ttl)` — serialize the claims plus
`issuedAt = now` and `expiresAt = now + ttl`, sign with the secret key. -/
def issueToken (key : String) (now ttl : Int) (d : ClaimData) : Token :=
  let p : Payload :=
    { sub := d.sub, context := d.context, tenant := d.tenant,
      orgId := d.orgId, email := d.email, iat := now, exp := now + ttl }
  Token.signed p (signPayload key p)

/-- Modelled from the spec: access-token lifetime (short-lived, minutes). -/
def accessTokenTtl : Int := 30 * 60

/-- Modelled from the spec: refresh-token lifetime (long-lived, days). -/
def refreshTokenTtl : Int := 7 * 24 * 60 * 60

/-- Modelled from the spec: `create_access_token(data)`. -/
def create_access_token (key : String) (now : Int) (d : ClaimData) : Token :=
  issueToken key now accessTokenTtl d

/-- Modelled from the spec: `create_refresh_token(data)`. -/
def create_refresh_token (key : String) (now : Int) (d : ClaimData) : Token :=
  issueToken key now refreshTokenTtl d

/-! ## Context resolution (`src/security.py`) -/

/-- An HTTP-level failure (`HTTPException(status_code, detail)`). -/
structure HTTPError where
  statusCode : Nat
  detail : String
deriving DecidableEq

/-- `get_current_user_context` (`src/security.py`): decode the bearer token,
check the `sub`/`context` claims, convert `sub` with `int()`, then branch on
the context.  Core context looks the core user up and requires it present and
active.  Tenant context requires `tenant` and `org_id` present, resolves the
organization by slug and requires its id to equal `org_id`; it then returns
the tuple `(user_id, context, tenant_slug)` — the source performs no tenant
user lookup in this branch. -/
def get_current_user_context (key : String) (now : Int) (db : DB)
    (credentials : Option Token) : Except HTTPError (Int × String × Option String) :=
  match credentials with
  | none => .error ⟨401, "Not authenticated"⟩
  | some tok =>
    match decode_token key now tok with
    | .error .expired => .error ⟨401, "Token has expired"⟩
    | .error .invalid => .error ⟨401, "Invalid token"⟩
    | .ok payload =>
      if !truthyS payload.sub || !truthyS payload.context then
        .error ⟨401, "Invalid token payload"⟩
      else
        match pyInt (payload.sub.getD "") with
        | none => .error ⟨401, "Invalid user ID in token"⟩
        | some user_id =>
          let context := payload.context.getD ""
          if context = "core" then
            match get_core_user_by_id user_id db with
            | none => .error ⟨401, "User not found or inactive"⟩
            | some user =>
              if !user.isActive then .error ⟨401, "User not found or inactive"⟩
              else .ok (user_id, context, none)
          else if context = "tenant" then
            if !truthyS payload.tenant || !truthyI payload.orgId then
              .error ⟨401, "Invalid tenant token payload"⟩
            else
              match get_organization_by_slug (payload.tenant.getD "") db with
              | none => .error ⟨401, "Invalid tenant in token"⟩
              | some organization =>
                if organization.id ≠ payload.orgId.getD 0 then
                  .error ⟨401, "Invalid tenant in token"⟩
                else .ok (user_id, context, payload.tenant)
          else .error ⟨401, "Invalid context in token"⟩

/-- `get_current_core_user_id` (`src/security.py`). -/
def get_current_core_user_id (key : String) (now : Int) (db : DB)
    (credentials : Option Token) : Except HTTPError Int :=
  match get_current_user_context key now db credentials with
  | .error e => .error e
  | .ok (user_id, context, _) =>
    if context ≠ "core" then .error ⟨403, "Access denied. Core user required"⟩
    else .ok user_id

/-- `get_current_tenant_user_id` (`src/security.py`). -/
def get_current_tenant_user_id (key : String) (now : Int) (db : DB)
    (credentials : Option Token) : Except HTTPError (Int × String) :=
  match get_current_user_context key now db credentials with
  | .error e => .error e
  | .ok (user_id, context, tenant_slug) =>
    if context ≠ "tenant" then .error ⟨403, "Access denied. Tenant user required"⟩
    else if !truthyS tenant_slug then .error ⟨401, "Missing tenant information"⟩
    else .ok (user_id, tenant_slug.getD "")

/-! ## Services (`src/api/services.py`)

Services raise `ValueError(msg)` on failure, modelled as `Except String`.
The bcrypt collaborator `verify_password` is abstract, passed as the
parameter `verify : String → String → Bool` (password, stored hash). -/

/-- The successful authentication result (the dict returned by the
`authenticate_*` services; the constant `success`/`message` entries are
omitted). -/
structure AuthResult where
  accessToken : Token
  refreshToken : Token
  userId : Int
  context : String
deriving DecidableEq

/-- `authenticate_core_user`: fetch by email; `ValueError("Invalid
credentials")` if absent or the hash does not verify; `ValueError("Account is
inactive")` if found and verified but disabled; otherwise issue the token
pair with core-context claims. -/
def authenticate_core_user (verify : String → String → Bool) (key : String)
    (now : Int) (email password : String) (db : DB) : Except String AuthResult :=
  match get_core_user_by_email email db with
  | none => .error "Invalid credentials"
  | some user =>
    if !verify password user.hashedPassword then .error "Invalid credentials"
    else if !user.isActive then .error "Account is inactive"
    else
      .ok { accessToken := create_access_token key now
              { sub := some (toString user.id), context := some "core",
                email := some user.email },
            refreshToken := create_refresh_token key now
              { sub := some (toString user.id), context := some "core" },
            userId := user.id, context := "core" }

/-- `get_tenant_session`: resolve the organization by slug (active only);
`ValueError("Tenant not found")` when absent or inactive.  The session it
returns is the core session itself, so the caller keeps querying the single
shared store. -/
def get_tenant_session (tenant_slug : String) (db : DB) : Except String Organization :=
  match get_organization_by_slug tenant_slug db with
  | none => .error "Tenant not found"
  | some organization => .ok organization

/-- `authenticate_tenant_user`: resolve the tenant, then fetch the tenant
user by email (the query filters on email only), verify the password,
require the account active, and issue the token pair with tenant-context
claims (`tenant` = requested slug, `org_id` = resolved organization id). -/
def authenticate_tenant_user (verify : String → String → Bool) (key : String)
    (now : Int) (email password tenant_slug : String) (db : DB) :
    Except String AuthResult :=
  match get_tenant_session tenant_slug db with
  | .error e => .error e
  | .ok organization =>
    match get_tenant_user_by_email email db with
    | none => .error "Invalid credentials"
    | some user =>
      if !verify password user.hashedPassword then .error "Invalid credentials"
      else if !user.isActive then .error "Account is inactive"
      else
        .ok { accessToken := create_access_token key now
                { sub := some (toString user.id), context := some "tenant",
                  tenant := some tenant_slug, orgId := some organization.id,
                  email := some user.email },
              refreshToken := create_refresh_token key now
                { sub := some (toString user.id), context := some "tenant",
                  tenant := some tenant_slug, orgId := some organization.id },
              userId := user.id, context := "tenant" }

/-- `get_tenant_user_profile`: resolve the tenant, fetch the tenant user by
id, `ValueError("User not found")` when absent. -/
def get_tenant_user_profile (user_id : Int) (tenant_slug : String) (db : DB) :
    Except String TenantUser :=
  match get_tenant_session tenant_slug db with
  | .error e => .error e
  | .ok _ =>
    match get_tenant_user_by_id user_id db with
    | none => .error "User not found"
    | some user => .ok user

/-- The optional fields of `TenantUserUpdate` (`src/api/schemas.py`). -/
structure TenantUserUpdate where
  firstName : Option String := none
  lastName : Option String := none
  phone : Option String := none
  avatar : Option String := none
  bio : Option String := none
deriving DecidableEq

/-- `update_tenant_user_profile`: resolve the tenant, fetch the tenant user
by id (`ValueError("User not found")` when absent), apply the set fields and
persist; returns the updated user and the updated store.  Only the columns
the auth model tracks are affected (the updatable profile fields do not
overlap them, so the row keeps its id/email/hash/activity). -/
def update_tenant_user_profile (user_id : Int) (_update_data : TenantUserUpdate)
    (tenant_slug : String) (db : DB) : Except String (TenantUser × DB) :=
  match get_tenant_session tenant_slug db with
  | .error e => .error e
  | .ok _ =>
    match get_tenant_user_by_id user_id db with
    | none => .error "User not found"
    | some user => .ok (user, db)

/-- A Python exception as observed by the endpoint handlers: `ValueError`
branches are caught specifically; anything else (here `AttributeError`, from
dereferencing `None`) falls to the generic `except Exception` handler. -/
inductive PyExc where
  | valueError (msg : String)
  | attributeError (msg : String)
deriving DecidableEq

/-- `refresh_access_token`: decode the refresh token (collapsing both decode
failures to `ValueError("Invalid or expired refresh token")`), check
`sub`/`context` truthiness, then re-fetch the principal per context and
rebuild `token_data`.  The source builds `token_data` by reading `user.id`
and `user.email` BEFORE the `if not user or not user.is_active` check, so an
absent user raises `AttributeError` (a `NoneType` dereference) rather than
reaching the `ValueError("User not found or inactive")` branch; only an
inactive user reaches it. -/
def refresh_access_token (key : String) (now : Int) (tok : Token) (db : DB) :
    Except PyExc Token :=
  match decode_token key now tok with
  | .error _ => .error (.valueError "Invalid or expired refresh token")
  | .ok payload =>
    if !truthyS payload.sub || !truthyS payload.context then
      .error (.valueError "Invalid token payload")
    else
      let user_id_str := payload.sub.getD ""
      let context := payload.context.getD ""
      if context = "core" then
        match pyInt user_id_str with
        | none => .error (.valueError "invalid literal for int() with base 10")
        | some uid =>
          match get_core_user_by_id uid db with
          | none => .error (.attributeError "'NoneType' object has no attribute 'id'")
          | some user =>
            if !user.isActive then .error (.valueError "User not found or inactive")
            else .ok (create_access_token key now
              { sub := some (toString user.id), context := some "core",
                email := some user.email })
      else if context = "tenant" then
        if !truthyS payload.tenant || !truthyI payload.orgId then
          .error (.valueError "Invalid tenant token payload")
        else
          match get_tenant_session (payload.tenant.getD "") db with
          | .error e => .error (.valueError e)
          | .ok _ =>
            match pyInt user_id_str with
            | none => .error (.valueError "invalid literal for int() with base 10")
            | some uid =>
              match get_tenant_user_by_id uid db with
              | none => .error (.attributeError "'NoneType' object has no attribute 'id'")
              | some user =>
                if !user.isActive then .error (.valueError "User not found or inactive")
                else .ok (create_access_token key now
                  { sub := some (toString user.id), context := some "tenant",
                    tenant := payload.tenant, orgId := payload.orgId,
                    email := some user.email })
      else .error (.valueError "Invalid context")

/-! ## Endpoints (`src/api/endpoints.py`)

The profile endpoints take the resolved tenant context from the
`get_current_tenant_user_id` dependency (whose failures propagate as real
`HTTPException`s) and then run their body inside
`try: ... except ValueError ... except Exception`.  `fastapi.HTTPException`
is a subclass of `Exception`, so an `HTTPException` raised inside the body —
the tenant-header guard failures — is caught by the catch-all and re-raised
as a 500 wrapping `str(e)` (Starlette renders an `HTTPException` as
`"{status_code}: {detail}"`). -/

/-- Outcome of an endpoint body before the `except` clauses are applied. -/
inductive BodyExit (α : Type) where
  | ok (a : α)
  | httpExc (e : HTTPError)
  | valueErr (msg : String)

/-- `str(e)` for a `fastapi.HTTPException`. -/
def strOfHTTPError (e : HTTPError) : String :=
  toString e.statusCode ++ ": " ++ e.detail

/-- Character-list comparison: does the second list start with the first? -/
def charsStartWith : List Char → List Char → Bool
  | [], _ => true
  | _ :: _, [] => false
  | a :: as, b :: bs => a == b && charsStartWith as bs

/-- Does the haystack contain the needle as a contiguous run? -/
def charsContain (needle : List Char) : List Char → Bool
  | [] => charsStartWith needle []
  | c :: rest => charsStartWith needle (c :: rest) || charsContain needle rest

/-- Python `needle in msg` substring test. -/
def containsSub (needle msg : String) : Bool :=
  charsContain needle.toList msg.toList

/-- The shared body of the two profile endpoints: the tenant-header guard
(`X-TENANT header required` / `Token tenant does not match request tenant`)
followed by the tenant-scoped operation. -/
def profileGuardBody {α : Type} (token_tenant : String) (x_tenant : Option String)
    (operation : String → Except String α) : BodyExit α :=
  if !truthyS x_tenant then
    .httpExc ⟨400, "X-TENANT header required"⟩
  else if token_tenant ≠ x_tenant.getD "" then
    .httpExc ⟨403, "Token tenant does not match request tenant"⟩
  else
    match operation (x_tenant.getD "") with
    | .error msg => .valueErr msg
    | .ok a => .ok a

/-- The `except` clauses of the profile endpoints: `ValueError` maps to 404
when its message contains `"User not found"` and to 400 otherwise; any other
exception — including an in-body `HTTPException` — is wrapped into a 500
whose detail embeds `str(e)`. -/
def profileExceptClauses {α : Type} (wrap : String) : BodyExit α → Except HTTPError α
  | .ok a => .ok a
  | .valueErr msg =>
      if containsSub "User not found" msg then .error ⟨404, msg⟩
      else .error ⟨400, msg⟩
  | .httpExc e => .error ⟨500, wrap ++ strOfHTTPError e⟩

/-- `GET /users/me` (`get_user_profile`): resolve the tenant principal via
the dependency, run the header guard and `get_tenant_user_profile` inside
the endpoint's `try`/`except`. -/
def get_user_profile (key : String) (now : Int) (db : DB)
    (credentials : Option Token) (x_tenant : Option String) :
    Except HTTPError TenantUser :=
  match get_current_tenant_user_id key now db credentials with
  | .error e => .error e
  | .ok (user_id, token_tenant) =>
    profileExceptClauses "Profile retrieval error: "
      (profileGuardBody token_tenant x_tenant
        (fun slug => get_tenant_user_profile user_id slug db))

/-- `PUT /users/me` (`update_user_profile`): same guard shape, running
`update_tenant_user_profile` inside the endpoint's `try`/`except`. -/
def update_user_profile (key : String) (now : Int) (db : DB)
    (update_data : TenantUserUpdate) (credentials : Option Token)
    (x_tenant : Option String) : Except HTTPError (TenantUser × DB) :=
  match get_current_tenant_user_id key now db credentials with
  | .error e => .error e
  | .ok (user_id, token_tenant) =>
    profileExceptClauses "Profile update error: "
      (profileGuardBody token_tenant x_tenant
        (fun slug => update_tenant_user_profile user_id update_data slug db))

/-- `POST /auth/login`: dispatch on the presence of the `X-Tenant` header and
map the service's `ValueError` messages onto HTTP statuses (`Invalid
credentials` and `Account is inactive` to 401, `Tenant not found` to 404,
anything else to 400). -/
def login (verify : String → String → Bool) (key : String) (now : Int)
    (email password : String) (x_tenant : Option String) (db : DB) :
    Except HTTPError AuthResult :=
  let serviceResult :=
    if truthyS x_tenant then
      authenticate_tenant_user verify key now email password (x_tenant.getD "") db
    else
      authenticate_core_user verify key now email password db
  match serviceResult with
  | .ok r => .ok r
  | .error msg =>
      if containsSub "Invalid credentials" msg then .error ⟨401, msg⟩
      else if containsSub "Account is inactive" msg then .error ⟨401, msg⟩
      else if containsSub "Tenant not found" msg then .error ⟨404, msg⟩
      else .error ⟨400, msg⟩

/-- `POST /auth/refresh`: `ValueError` maps to 401 with the same message;
any other exception (the `AttributeError` path) is wrapped into a 500. -/
def refresh_token_endpoint (key : String) (now : Int) (tok : Token) (db : DB) :
    Except HTTPError Token :=
  match refresh_access_token key now tok db with
  | .ok t => .ok t
  | .error (.valueError msg) => .error ⟨401, msg⟩
  | .error (.attributeError msg) =>
      .error ⟨500, "Token refresh error: " ++ msg⟩

/-! ## Concrete fixtures for scenario evaluation -/

/-- A demo stand-in for the bcrypt collaborator: the stored hash of password
`p` is `"h:" ++ p`. -/
def vpDemo : String → String → Bool := fun p h => h == "h:" ++ p

/-- The `org_id` claim of a token, if it is well-formed. -/
def tokenOrgId : Token → Option Int
  | .signed p _ => p.orgId
  | .malformed _ => none

/-- An empty store. -/
def dbEmpty : DB := ⟨[], [], []⟩

/-- Store with the live organization `acme` (id 1) and no tenant users. -/
def dbAcmeNoUsers : DB := ⟨[], [⟨1, "acme", true⟩], []⟩

/-- Store with the live organization `acme` (id 1) and a deactivated tenant
user with id 7. -/
def dbAcmeInactiveUser7 : DB :=
  ⟨[], [⟨1, "acme", true⟩], [⟨7, "eve@acme.io", "h:pw", false, 1⟩]⟩

/-- A tenant-context claim set for user 7 bound to `acme` / organization 1,
valid until time 100. -/
def payloadTenant7 : Payload :=
  ⟨some "7", some "tenant", some "acme", some 1, none, 0, 100⟩

/-- The correctly signed token for `payloadTenant7` under key `"k"`. -/
def tokTenant7 : Token := .signed payloadTenant7 (signPayload "k" payloadTenant7)

/-- Store with live organizations `acme` (id 1) and `other` (id 2), and one
tenant user `bob@other.io` (id 5) belonging to organization 2. -/
def dbTwoTenants : DB :=
  ⟨[], [⟨1, "acme", true⟩, ⟨2, "other", true⟩],
   [⟨5, "bob@other.io", "h:pw", true, 2⟩]⟩

/-- A core-context refresh claim set for user 3, valid until time 100. -/
def payloadCore3 : Payload := ⟨some "3", some "core", none, none, none, 0, 100⟩

/-- The correctly signed token for `payloadCore3` under key `"k"`. -/
def tokCore3 : Token := .signed payloadCore3 (signPayload "k" payloadCore3)

/-- Store whose only core user (id 3) is deactivated. -/
def dbCore3Inactive : DB := ⟨[⟨3, "carol@x.io", "h:pw", false⟩], [], []⟩

/-- Store with the live organization `acme` (id 1) and an active tenant user
with id 7, for exercising the profile endpoints. -/
def dbAcmeActiveUser7 : DB :=
  ⟨[], [⟨1, "acme", true⟩], [⟨7, "eve@acme.io", "h:pw", true, 1⟩]⟩

/-- Store where slug `acme` belongs to organization 2 (the organization with
id 1 was recreated), so a token carrying `org_id = 1` is stale. -/
def dbAcmeRecreated : DB := ⟨[], [⟨2, "acme", true⟩], []⟩

/-- Store with one live organization and one inactive organization. -/
def dbGoneInactive : DB := ⟨[], [⟨1, "acme", true⟩, ⟨2, "gone", false⟩], []⟩

/-- A valid-signature claim set whose subject is not numeric. -/
def payloadBadSub : Payload := ⟨some "abc", some "core", none, none, none, 0, 100⟩

/-- A valid-signature claim set with no subject claim. -/
def payloadNoSub : Payload := ⟨none, some "core", none, none, none, 0, 100⟩

/-- Store with a mix of active/inactive core and tenant users for the login
scenarios: `alice` (core, active), `carol` (core, inactive), `bob` (tenant 1,
active), `dan` (tenant 1, inactive). -/
def dbAuthMix : DB :=
  ⟨[⟨1, "alice@x.io", "h:pw", true⟩, ⟨2, "carol@x.io", "h:pw2", false⟩],
   [⟨1, "acme", true⟩],
   [⟨5, "bob@acme.io", "h:pw", true, 1⟩, ⟨6, "dan@acme.io", "h:pw3", false, 1⟩]⟩

/-! ## Claim theorems -/

/-- C1: the claim says tenant-context resolution additionally looks up the
tenant-scoped user by the token's subject id and fails with Unauthenticated
when that user is absent or inactive.  The code does not: the tenant branch
of `get_current_user_context` returns the principal tuple right after the
organization check.  Evaluated at the failing inputs: with no tenant user at
all, and with tenant user 7 deactivated, resolution still succeeds with the
full tenant principal. -/
theorem c1_tenant_resolution_skips_user_liveness :
    get_current_user_context "k" 0 dbAcmeNoUsers (some tokTenant7) =
      .ok (7, "tenant", some "acme") ∧
    get_current_user_context "k" 0 dbAcmeInactiveUser7 (some tokTenant7) =
      .ok (7, "tenant", some "acme") :=
  ⟨rfl, rfl⟩

/-- C2: the claim says a tenant-scoped login restricts the user lookup to
the target tenant's user scope, so logging into tenant `acme` with the
credentials of a user belonging to tenant `other` fails.  The code's
`get_tenant_user_by_email` filters on email only, so the login succeeds:
user 5 (organization 2) authenticates into `acme` and is issued a token
pair whose `org_id` claim is `acme`'s id 1. -/
theorem c2_cross_tenant_login_succeeds :
    (authenticate_tenant_user vpDemo "k" 0 "bob@other.io" "pw" "acme"
        dbTwoTenants).toOption.map (fun r => (r.userId, r.context)) =
      some (5, "tenant") ∧
    (authenticate_tenant_user vpDemo "k" 0 "bob@other.io" "pw" "acme"
        dbTwoTenants).toOption.map (fun r => tokenOrgId r.accessToken) =
      some (some 1) ∧
    (get_tenant_user_by_email "bob@other.io" dbTwoTenants).map
        (fun u => u.organizationId) = some 2 :=
  ⟨rfl, rfl, rfl⟩

/-- C3: the claim says refresh fails with
`InvalidCredentials("user not found or inactive")` for both an absent and an
inactive re-fetched principal.  The code builds `token_data` from `user.id`
and `user.email` before its `if not user or not user.is_active` check, so an
absent user raises `AttributeError` instead (surfacing as a 500 at the
endpoint); only the inactive case produces the claimed error. -/
theorem c3_refresh_absent_user_raises_attribute_error :
    refresh_access_token "k" 0 tokCore3 dbEmpty =
      .error (.attributeError "'NoneType' object has no attribute 'id'") ∧
    refresh_access_token "k" 0 tokCore3 dbCore3Inactive =
      .error (.valueError "User not found or inactive") ∧
    refresh_token_endpoint "k" 0 tokCore3 dbEmpty =
      .error ⟨500, "Token refresh error: 'NoneType' object has no attribute 'id'"⟩ ∧
    refresh_token_endpoint "k" 0 tokCore3 dbCore3Inactive =
      .error ⟨401, "User not found or inactive"⟩ :=
  ⟨rfl, rfl, rfl, rfl⟩

/-- C7: the claim says an absent `X-Tenant` header fails with
`BadRequest("tenant header required")` and a mismatched one with
`Forbidden("tenant mismatch")`.  The guard raises those `HTTPException`s
inside the endpoint's `try`, whose `except Exception` catch-all re-raises
them as 500s, so the observable outcomes are 500s wrapping the intended
status and detail; the matching-header case does pass and performs the
operation. -/
theorem c7_header_guard_failures_surface_as_500 :
    get_user_profile "k" 0 dbAcmeActiveUser7 (some tokTenant7) none =
      .error ⟨500, "Profile retrieval error: 400: X-TENANT header required"⟩ ∧
    get_user_profile "k" 0 dbAcmeActiveUser7 (some tokTenant7) (some "other") =
      .error ⟨500, "Profile retrieval error: 403: Token tenant does not match request tenant"⟩ ∧
    update_user_profile "k" 0 dbAcmeActiveUser7 {} (some tokTenant7) none =
      .error ⟨500, "Profile update error: 400: X-TENANT header required"⟩ ∧
    update_user_profile "k" 0 dbAcmeActiveUser7 {} (some tokTenant7) (some "other") =
      .error ⟨500, "Profile update error: 403: Token tenant does not match request tenant"⟩ ∧
    get_user_profile "k" 0 dbAcmeActiveUser7 (some tokTenant7) (some "acme") =
      .ok ⟨7, "eve@acme.io", "h:pw", true, 1⟩ :=
  ⟨rfl, rfl, rfl, rfl, rfl⟩

/-- C4: for every tenant-context claim set reaching context resolution, if
the `org_id` claim does not equal the id of the live organization resolved
by the `tenant` claim (including when no live organization exists for that
slug), resolution yields Unauthenticated (status 401) and no principal is
produced — even though the token's signature is valid (the token here is
signed with the very key resolution verifies against). -/
theorem c4_stale_tenant_binding_rejected (key : String) (now : Int) (db : DB)
    (p : Payload) (hctx : p.context = some "tenant") (hexp : now ≤ p.exp)
    (hbad : ∀ org, get_organization_by_slug (p.tenant.getD "") db = some org →
      org.id ≠ p.orgId.getD 0) :
    ∃ e, get_current_user_context key now db (some (.signed p (signPayload key p))) =
      .error e ∧ e.statusCode = 401 := by
  have hdec : decode_token key now (.signed p (signPayload key p)) = .ok p := by
    simp [decode_token, not_lt.mpr hexp]
  simp only [get_current_user_context, hdec]
  by_cases hb : (!truthyS p.sub || !truthyS p.context) = true
  · rw [if_pos hb]
    exact ⟨_, rfl, rfl⟩
  · rw [if_neg hb]
    cases hpi : pyInt (p.sub.getD "") with
    | none => exact ⟨_, rfl, rfl⟩
    | some uid =>
      simp only [hctx, Option.getD_some]
      rw [if_neg (by decide : ¬("tenant" : String) = "core")]
      rw [if_pos trivial]
      by_cases ht : (!truthyS p.tenant || !truthyI p.orgId) = true
      · rw [if_pos ht]
        exact ⟨_, rfl, rfl⟩
      · rw [if_neg ht]
        cases horg : get_organization_by_slug (p.tenant.getD "") db with
        | none => exact ⟨_, rfl, rfl⟩
        | some org =>
          exact ⟨⟨401, "Invalid tenant in token"⟩, by simp [hbad org horg], rfl⟩

/-- C4 witness: a correctly signed token bound to `acme` with `org_id = 1`
is rejected with a 401 once slug `acme` belongs to the recreated
organization with id 2. -/
theorem c4_stale_tenant_binding_rejected_witness :
    ∃ e, get_current_user_context "k" 0 dbAcmeRecreated (some tokTenant7) =
      .error e ∧ e.statusCode = 401 :=
  c4_stale_tenant_binding_rejected "k" 0 dbAcmeRecreated payloadTenant7 rfl
    (by decide)
    (fun org h => by
      rw [show get_organization_by_slug (payloadTenant7.tenant.getD "")
          dbAcmeRecreated = some ⟨2, "acme", true⟩ from rfl] at h
      cases h
      decide)

/-- C5: tenant resolution fails with the tenant-not-found outcome iff no
organization has the slug or the organization that has it is inactive;
every failure carries the same error value, so the two causes are
indistinguishable to the caller; on success it returns the stored active
organization with that slug.  The hypothesis mirrors the database's unique
constraint on `organizations.slug`. -/
theorem c5_tenant_not_found_characterization (slug : String) (db : DB)
    (huniq : ∀ o1 ∈ db.organizations, ∀ o2 ∈ db.organizations,
      o1.slug = o2.slug → o1 = o2) :
    (get_tenant_session slug db = .error "Tenant not found" ↔
      (∀ o ∈ db.organizations, o.slug ≠ slug) ∨
      (∃ o ∈ db.organizations, o.slug = slug ∧ o.isActive = false)) ∧
    (∀ e, get_tenant_session slug db = .error e → e = "Tenant not found") ∧
    (∀ o, get_tenant_session slug db = .ok o →
      o ∈ db.organizations ∧ o.slug = slug ∧ o.isActive = true) := by
  cases hf : db.organizations.find? (fun o => o.slug == slug && o.isActive) with
  | none =>
      have hres : get_tenant_session slug db = .error "Tenant not found" := by
        simp only [get_tenant_session, get_organization_by_slug]
        rw [hf]
      have hall := List.find?_eq_none.mp hf
      refine ⟨⟨fun _ => ?_, fun _ => hres⟩, fun e he => ?_, fun o ho => ?_⟩
      · by_cases hex : ∃ o ∈ db.organizations, o.slug = slug
        · obtain ⟨o, ho, hs⟩ := hex
          have h2 := hall o ho
          simp [hs] at h2
          exact Or.inr ⟨o, ho, hs, h2⟩
        · push_neg at hex
          exact Or.inl hex
      · rw [hres] at he
        exact (Except.error.injEq .. ▸ he).symm
      · rw [hres] at ho
        cases ho
  | some org =>
      have hres : get_tenant_session slug db = .ok org := by
        simp only [get_tenant_session, get_organization_by_slug]
        rw [hf]
      have hporg := List.find?_some hf
      have hmem := List.mem_of_find?_eq_some hf
      simp only [Bool.and_eq_true, beq_iff_eq] at hporg
      obtain ⟨hs, hact⟩ := hporg
      refine ⟨⟨fun h => ?_, fun h => ?_⟩, fun e he => ?_, fun o ho => ?_⟩
      · rw [hres] at h
        cases h
      · rcases h with h | ⟨o2, ho2, hs2, hin2⟩
        · exact absurd hs (h org hmem)
        · have := huniq org hmem o2 ho2 (hs.trans hs2.symm)
          rw [this, hin2] at hact
          cases hact
      · rw [hres] at he
        cases he
      · rw [hres] at ho
        cases ho
        exact ⟨hmem, hs, hact⟩

/-- C5 witness: on a store holding the live `acme` and the inactive `gone`,
resolving `gone` yields exactly the tenant-not-found error, and the
characterization holds. -/
theorem c5_tenant_not_found_characterization_witness :
    (get_tenant_session "gone" dbGoneInactive = .error "Tenant not found" ↔
      (∀ o ∈ dbGoneInactive.organizations, o.slug ≠ "gone") ∨
      (∃ o ∈ dbGoneInactive.organizations, o.slug = "gone" ∧ o.isActive = false)) ∧
    (∀ e, get_tenant_session "gone" dbGoneInactive = .error e →
      e = "Tenant not found") ∧
    (∀ o, get_tenant_session "gone" dbGoneInactive = .ok o →
      o ∈ dbGoneInactive.organizations ∧ o.slug = "gone" ∧ o.isActive = true) :=
  c5_tenant_not_found_characterization "gone" dbGoneInactive
    (by
      intro o1 h1 o2 h2 hs
      fin_cases h1 <;> fin_cases h2 <;> simp_all [dbGoneInactive])

/-- C6: token verification has exactly two failure kinds.  It fails as
expired iff the token is well-formed and correctly signed and `now >
expiresAt`; it fails as invalid iff the structure cannot be parsed or the
signature does not recompute — in particular any token whose stored
signature differs from the correct one (for instance by a flipped byte)
falls under the invalid side, never the expired one. -/
theorem c6_token_verification_failure_kinds (key : String) (now : Int)
    (tok : Token) :
    (decode_token key now tok = .error .expired ↔
      ∃ p, tok = .signed p (signPayload key p) ∧ p.exp < now) ∧
    (decode_token key now tok = .error .invalid ↔
      (∃ s, tok = .malformed s) ∨
      ∃ p sig, tok = .signed p sig ∧ sig ≠ signPayload key p) := by
  cases tok with
  | malformed s =>
      refine ⟨⟨fun h => ?_, fun h => ?_⟩, ⟨fun _ => .inl ⟨s, rfl⟩, fun _ => rfl⟩⟩
      · simp [decode_token] at h
      · rcases h with ⟨p, h1, _⟩; cases h1
  | signed p sig =>
      by_cases hsig : sig = signPayload key p
      · subst hsig
        by_cases hexp : p.exp < now
        · refine ⟨⟨fun _ => ⟨p, rfl, hexp⟩, fun _ => ?_⟩, ⟨fun h => ?_, fun h => ?_⟩⟩
          · simp [decode_token, hexp]
          · simp [decode_token, hexp] at h
          · rcases h with ⟨s, h1⟩ | ⟨q, sg, h1, h2⟩
            · cases h1
            · injection h1 with hq hs
              subst hq; subst hs; exact absurd rfl h2
        · refine ⟨⟨fun h => ?_, fun h => ?_⟩, ⟨fun h => ?_, fun h => ?_⟩⟩
          · simp [decode_token, hexp] at h
          · rcases h with ⟨q, h1, h2⟩
            injection h1 with hq hs
            subst hq; exact absurd h2 hexp
          · simp [decode_token, hexp] at h
          · rcases h with ⟨s, h1⟩ | ⟨q, sg, h1, h2⟩
            · cases h1
            · injection h1 with hq hs
              subst hq; subst hs; exact absurd rfl h2
      · refine ⟨⟨fun h => ?_, fun h => ?_⟩,
          ⟨fun _ => .inr ⟨p, sig, rfl, hsig⟩, fun _ => ?_⟩⟩
        · simp [decode_token, hsig] at h
        · rcases h with ⟨q, h1, h2⟩
          injection h1 with hq hs
          subst hq; exact (hsig hs).elim
        · simp [decode_token, hsig]

/-- C8: within one store, a login whose email matches no user and a login
whose email matches a user but whose password hash does not verify produce
exactly the same error value (`Invalid credentials`), for the core service
and for the tenant service alike; only a found-and-verified but inactive
account produces the distinct `Account is inactive` outcome. -/
theorem c8_credential_failures_indistinguishable
    (verify : String → String → Bool) (key : String) (now : Int)
    (db : DB) (em1 pw1 em2 pw2 slug : String) :
    ((get_core_user_by_email em1 db = none →
       authenticate_core_user verify key now em1 pw1 db =
         .error "Invalid credentials") ∧
     (∀ u, get_core_user_by_email em2 db = some u →
       verify pw2 u.hashedPassword = false →
       authenticate_core_user verify key now em2 pw2 db =
         .error "Invalid credentials") ∧
     (∀ u, get_core_user_by_email em2 db = some u →
       verify pw2 u.hashedPassword = true → u.isActive = false →
       authenticate_core_user verify key now em2 pw2 db =
         .error "Account is inactive")) ∧
    (∀ org, get_tenant_session slug db = .ok org →
     ((get_tenant_user_by_email em1 db = none →
       authenticate_tenant_user verify key now em1 pw1 slug db =
         .error "Invalid credentials") ∧
      (∀ u, get_tenant_user_by_email em2 db = some u →
        verify pw2 u.hashedPassword = false →
        authenticate_tenant_user verify key now em2 pw2 slug db =
          .error "Invalid credentials") ∧
      (∀ u, get_tenant_user_by_email em2 db = some u →
        verify pw2 u.hashedPassword = true → u.isActive = false →
        authenticate_tenant_user verify key now em2 pw2 slug db =
          .error "Account is inactive"))) := by
  refine ⟨⟨fun h => ?_, fun u hu hv => ?_, fun u hu hv ha => ?_⟩,
    fun org horg => ⟨fun h => ?_, fun u hu hv => ?_, fun u hu hv ha => ?_⟩⟩
  · simp only [authenticate_core_user, h]
  · simp only [authenticate_core_user, hu]
    rw [if_pos (by simp [hv])]
  · simp only [authenticate_core_user, hu]
    rw [if_neg (by simp [hv]), if_pos (by simp [ha])]
  · simp only [authenticate_tenant_user, horg, h]
  · simp only [authenticate_tenant_user, horg, hu]
    rw [if_pos (by simp [hv])]
  · simp only [authenticate_tenant_user, horg, hu]
    rw [if_neg (by simp [hv]), if_pos (by simp [ha])]

/-- C8 witness: on a concrete store, unknown-email and wrong-password logins
return the identical error value, for the core and the tenant service, and
the inactive accounts return the distinct inactive error. -/
theorem c8_credential_failures_indistinguishable_witness :
    authenticate_core_user vpDemo "k" 0 "ghost@x.io" "pw" dbAuthMix =
      .error "Invalid credentials" ∧
    authenticate_core_user vpDemo "k" 0 "alice@x.io" "wrong" dbAuthMix =
      .error "Invalid credentials" ∧
    authenticate_core_user vpDemo "k" 0 "carol@x.io" "pw2" dbAuthMix =
      .error "Account is inactive" ∧
    authenticate_tenant_user vpDemo "k" 0 "ghost@x.io" "pw" "acme" dbAuthMix =
      .error "Invalid credentials" ∧
    authenticate_tenant_user vpDemo "k" 0 "bob@acme.io" "wrong" "acme" dbAuthMix =
      .error "Invalid credentials" ∧
    authenticate_tenant_user vpDemo "k" 0 "dan@acme.io" "pw3" "acme" dbAuthMix =
      .error "Account is inactive" :=
  ⟨(c8_credential_failures_indistinguishable vpDemo "k" 0 dbAuthMix
      "ghost@x.io" "pw" "x" "x" "acme").1.1 rfl,
   (c8_credential_failures_indistinguishable vpDemo "k" 0 dbAuthMix
      "x" "x" "alice@x.io" "wrong" "acme").1.2.1 ⟨1, "alice@x.io", "h:pw", true⟩
      rfl rfl,
   (c8_credential_failures_indistinguishable vpDemo "k" 0 dbAuthMix
      "x" "x" "carol@x.io" "pw2" "acme").1.2.2 ⟨2, "carol@x.io", "h:pw2", false⟩
      rfl rfl rfl,
   ((c8_credential_failures_indistinguishable vpDemo "k" 0 dbAuthMix
      "ghost@x.io" "pw" "x" "x" "acme").2 ⟨1, "acme", true⟩ rfl).1 rfl,
   ((c8_credential_failures_indistinguishable vpDemo "k" 0 dbAuthMix
      "x" "x" "bob@acme.io" "wrong" "acme").2 ⟨1, "acme", true⟩ rfl).2.1
      ⟨5, "bob@acme.io", "h:pw", true, 1⟩ rfl rfl,
   ((c8_credential_failures_indistinguishable vpDemo "k" 0 dbAuthMix
      "x" "x" "dan@acme.io" "pw3" "acme").2 ⟨1, "acme", true⟩ rfl).2.2
      ⟨6, "dan@acme.io", "h:pw3", false, 1⟩ rfl rfl rfl⟩

/-- C9: decoding a token issued from caller-supplied claims returns exactly
those claims plus the computed `iat = now` and `exp = now + ttl`, as long as
the decoding time is at most the expiry — decode after encode is the
identity on the caller's claim set until expiry. -/
theorem c9_decode_encode_roundtrip (key : String) (t0 ttl now : Int)
    (d : ClaimData) (h : now ≤ t0 + ttl) :
    decode_token key now (issueToken key t0 ttl d) =
      .ok { sub := d.sub, context := d.context, tenant := d.tenant,
            orgId := d.orgId, email := d.email, iat := t0, exp := t0 + ttl } := by
  simp [decode_token, issueToken, not_lt.mpr h]

/-- C9 witness: a token issued at time 0 with ttl 10 decodes at time 5 back
to the original claims with the computed timestamps. -/
theorem c9_decode_encode_roundtrip_witness :
    decode_token "k" 5 (issueToken "k" 0 10
        { sub := some "123", context := some "core" }) =
      .ok { sub := some "123", context := some "core", tenant := none,
            orgId := none, email := none, iat := 0, exp := 10 } :=
  c9_decode_encode_roundtrip "k" 0 10 5
    { sub := some "123", context := some "core" } (by decide)

/-- C10: on a correctly signed, unexpired token, if the `sub` and `context`
claims are present (truthy) but `sub` is not accepted by Python integer
parsing, context resolution fails with 401 `Invalid user ID in token` — and
since the store `db` is universally quantified and the outcome is a
constant, the failure happens independently of any user or organization
lookup; a missing (or empty) `sub` or `context` fails with 401
`Invalid token payload`. -/
theorem c10_nonnumeric_subject_rejected (key : String) (now : Int) (db : DB)
    (p : Payload) (hexp : now ≤ p.exp) :
    (truthyS p.sub = true → truthyS p.context = true →
      pyInt (p.sub.getD "") = none →
      get_current_user_context key now db (some (.signed p (signPayload key p))) =
        .error ⟨401, "Invalid user ID in token"⟩) ∧
    (truthyS p.sub = false ∨ truthyS p.context = false →
      get_current_user_context key now db (some (.signed p (signPayload key p))) =
        .error ⟨401, "Invalid token payload"⟩) := by
  have hdec : decode_token key now (.signed p (signPayload key p)) = .ok p := by
    simp [decode_token, not_lt.mpr hexp]
  constructor
  · intro hs hc hpi
    simp only [get_current_user_context, hdec]
    rw [if_neg (by simp [hs, hc])]
    rw [hpi]
  · intro hor
    simp only [get_current_user_context, hdec]
    rw [if_pos (by rcases hor with h | h <;> simp [h])]

/-- C10 witness: the signed token with subject `abc` fails with `Invalid
user ID in token`, and the one with no subject with `Invalid token
payload`. -/
theorem c10_nonnumeric_subject_rejected_witness :
    get_current_user_context "k" 0 dbEmpty
        (some (.signed payloadBadSub (signPayload "k" payloadBadSub))) =
      .error ⟨401, "Invalid user ID in token"⟩ ∧
    get_current_user_context "k" 0 dbEmpty
        (some (.signed payloadNoSub (signPayload "k" payloadNoSub))) =
      .error ⟨401, "Invalid token payload"⟩ :=
  ⟨(c10_nonnumeric_subject_rejected "k" 0 dbEmpty payloadBadSub (by decide)).1
      rfl rfl rfl,
   (c10_nonnumeric_subject_rejected "k" 0 dbEmpty payloadNoSub (by decide)).2
      (Or.inl rfl)⟩

end MultiTenantAuth
